import Mathlib

/-!
Shallow embedding of `src/app.py`, a Streamlit front-end that loads a
random-forest pipeline, resolves a decision threshold from a JSON sidecar
file, assembles a 15-field patient record from form inputs, and classifies
the predicted probability against the threshold.

Numbers that are Python ints are embedded as `Int`; Python floats and JSON
numbers are embedded as `Rat` (the claims under study are about comparisons
and data flow, not rounding). The external model (joblib pipeline) is an
abstract function parameter, and its `predict_proba` call is modelled as an
`Except String Rat` value: `ok p` when the call returns the positive-class
probability `p`, `error e` when it raises an exception with message `e`.
-/

namespace SpineApp

/-! ### Threshold resolver (app.py lines 16-27)

```python
THR_PATH = BASE_DIR / "rf_thresholds.json"
DEFAULT_THR = 0.5
try:
    with open(THR_PATH, "r", encoding="utf-8") as f:
        thr_cfg = json.load(f)
    # Priority: Youden > Chosen > default 0.5
    THRESHOLD = float(thr_cfg.get("threshold_Youden",
                       thr_cfg.get("threshold_Chosen", DEFAULT_THR)))
    thr_source = "Youden (from rf_thresholds.json)"
except Exception:
    THRESHOLD = DEFAULT_THR
    thr_source = "Default 0.5 (threshold file missing)"
```
-/

/-- `DEFAULT_THR = 0.5` (app.py line 17). -/
def DEFAULT_THR : ℚ := 1/2

/-- A JSON value as produced by `json.load`. A JSON number is a rational.
`jstr conv` is a JSON string carrying the abstracted result of applying the
Python builtin `float` to it: `some q` when the string parses as the finite
value `q`, `none` when `float` raises `ValueError`. Nested arrays and
objects are collapsed to `jarr` and `jobj` because the resolver only ever
passes them to `float`, which raises `TypeError` on both. -/
inductive JVal where
  | jnum (q : ℚ)
  | jbool (b : Bool)
  | jnull
  | jstr (conv : Option ℚ)
  | jarr
  | jobj
deriving DecidableEq

/-- The Python builtin `float` applied to a JSON value: `some q` when the
conversion returns `q`, `none` when it raises (`TypeError` for `None`,
lists and dicts; `ValueError` for non-numeric strings). `float(True) = 1.0`
and `float(False) = 0.0`. -/
def pyFloat : JVal → Option ℚ
  | .jnum q => some q
  | .jbool b => some (if b then 1 else 0)
  | .jnull => none
  | .jstr conv => conv
  | .jarr => none
  | .jobj => none

/-- The state of the threshold sidecar file `rf_thresholds.json`, as the
resolver can observe it: the file can be absent (`open` raises
`FileNotFoundError`), unreadable (`open` or `read` raises an `OSError`),
present but not valid JSON (`json.load` raises), present with a top-level
JSON value that is not an object (`thr_cfg.get` raises `AttributeError`),
or a parsed JSON object given by its key-value entries. -/
inductive ThrConfig where
  | absent
  | unreadable
  | badJson
  | topNonObj
  | obj (entries : List (String × JVal))
deriving DecidableEq

/-- Python `dict.get(k)` on a dict parsed by `json.load`: when a key occurs
several times in the JSON text the last occurrence wins, hence the lookup
over the reversed entry list. Returns `none` when the key is absent. -/
def dget (es : List (String × JVal)) (k : String) : Option JVal :=
  List.lookup k es.reverse

/-- The argument handed to `float` on the success path: either a value
taken from the config dict, or the Python literal `DEFAULT_THR` when both
keys are absent. -/
inductive SelVal where
  | fromCfg (v : JVal)
  | defNum
deriving DecidableEq

/-- `thr_cfg.get("threshold_Youden", thr_cfg.get("threshold_Chosen", DEFAULT_THR))`
(app.py lines 22-23): prefer the value stored under `threshold_Youden`,
else the value under `threshold_Chosen`, else the literal `0.5`. -/
def selected (es : List (String × JVal)) : SelVal :=
  match dget es "threshold_Youden" with
  | some v => .fromCfg v
  | none =>
    match dget es "threshold_Chosen" with
    | some v => .fromCfg v
    | none => .defNum

/-- `float` applied to the selected argument; `float(0.5)` never raises. -/
def pyFloatSel : SelVal → Option ℚ
  | .fromCfg v => pyFloat v
  | .defNum => some DEFAULT_THR

/-- The provenance label set on the success path (app.py line 24). -/
def srcYouden : String := "Youden (from rf_thresholds.json)"

/-- The provenance label set on the exception path (app.py line 27). -/
def srcDefault : String := "Default 0.5 (threshold file missing)"

/-- The whole `try/except` block of app.py lines 18-27, returning the pair
`(THRESHOLD, thr_source)`. Every failure - missing or unreadable file,
invalid JSON, non-object top level, or `float` raising on the selected
value - lands in the `except Exception` branch, which yields
`(DEFAULT_THR, srcDefault)`. -/
def resolveThreshold : ThrConfig → ℚ × String
  | .obj es =>
    match pyFloatSel (selected es) with
    | some q => (q, srcYouden)
    | none => (DEFAULT_THR, srcDefault)
  | _ => (DEFAULT_THR, srcDefault)

/-! ### Classification rule (app.py lines 140-141)

```python
pred_cls = int(proba >= THRESHOLD)
label = "Resorption (1)" if pred_cls == 1 else "Non-resorption (0)"
```
-/

/-- `pred_cls = int(proba >= THRESHOLD)` (app.py line 140). -/
def pred_cls (proba THRESHOLD : ℚ) : ℤ :=
  if proba ≥ THRESHOLD then 1 else 0

/-- `label = "Resorption (1)" if pred_cls == 1 else "Non-resorption (0)"`
(app.py line 141). -/
def predLabel (c : ℤ) : String :=
  if c = 1 then "Resorption (1)" else "Non-resorption (0)"

/-! ### Input schema (app.py lines 49-73) -/

/-- `CATS["Gender"]` (app.py line 50). -/
def CATS_Gender : List ℤ := [0, 1]

/-- `CATS["Herniated_Level"]` (app.py line 51). -/
def CATS_Herniated_Level : List String := ["L2/3", "L3/4", "L4/5", "L5/S1"]

/-- `CATS["Priffmann"]` (app.py line 52). -/
def CATS_Priffmann : List ℤ := [1, 2, 3, 4, 5]

/-- `CATS["Iwabuchi"]` (app.py line 53). -/
def CATS_Iwabuchi : List ℤ := [1, 2, 3, 4, 5]

/-- `CATS["Modic"]` (app.py line 54). -/
def CATS_Modic : List ℤ := [0, 1, 2]

/-- `CATS["Komori"]` (app.py line 55). -/
def CATS_Komori : List ℤ := [1, 2, 3, 4]

/-- `CATS["MSU"]` (app.py line 56). -/
def CATS_MSU : List ℤ := [1, 2, 3]

/-- `CATS["Spinal_canal_stenosis"]` (app.py line 57). -/
def CATS_Spinal_canal_stenosis : List ℤ := [0, 1]

/-- `CATS["Bull_eye"]` (app.py line 58). -/
def CATS_Bull_eye : List ℤ := [1, 2, 3]

/-- `NUMS` (app.py lines 60-67): `(min, max, default)` per numeric field. -/
def NUMS_Age : ℤ × ℤ × ℤ := (18, 90, 50)

/-- `NUMS["SS"]` (app.py line 62). -/
def NUMS_SS : ℚ × ℚ × ℚ := (0, 60, 30)

/-- `NUMS["Months_of_Review"]` (app.py line 63). -/
def NUMS_Months_of_Review : ℤ × ℤ × ℤ := (1, 36, 6)

/-- `NUMS["Initial_volume"]` (app.py line 64). -/
def NUMS_Initial_volume : ℚ × ℚ × ℚ := (0, 50, 4)

/-- `NUMS["Upper_VB_Posterior_Height_CM"]` (app.py line 65). -/
def NUMS_Upper_VB_Posterior_Height_CM : ℚ × ℚ × ℚ := (1, 5, 5/2)

/-- `NUMS["Lower_VB_Posterior_Height_CM"]` (app.py line 66). -/
def NUMS_Lower_VB_Posterior_Height_CM : ℚ × ℚ × ℚ := (1, 5, 12/5)

/-- `FEATURES` (app.py lines 68-73): the declared schema order. -/
def FEATURES : List String :=
  ["Age", "Gender", "Herniated_Level", "Priffmann", "Iwabuchi", "Modic",
   "Komori", "MSU", "Spinal_canal_stenosis", "Bull_eye", "SS",
   "Upper_VB_Posterior_Height_CM", "Lower_VB_Posterior_Height_CM",
   "Initial_volume", "Months_of_Review"]

/-- A cell value of the assembled record: a Python int, float or str. -/
inductive FieldVal where
  | iv (z : ℤ)
  | qv (x : ℚ)
  | sv (s : String)
deriving DecidableEq

/-- The current values of the 15 form widgets (app.py lines 79-108), in
the order Age, Gender, Herniated_Level, Priffmann, Iwabuchi, Modic,
Komori, MSU, Spinal_canal_stenosis, Bull_eye, SS,
Upper_VB_Posterior_Height_CM, Lower_VB_Posterior_Height_CM,
Initial_volume, Months_of_Review. Gender holds the raw 0/1 code. -/
structure Inputs where
  Age : ℤ
  Gender : ℤ
  Herniated_Level : String
  Priffmann : ℤ
  Iwabuchi : ℤ
  Modic : ℤ
  Komori : ℤ
  MSU : ℤ
  Spinal_canal_stenosis : ℤ
  Bull_eye : ℤ
  SS : ℚ
  Upper_VB_Posterior_Height_CM : ℚ
  Lower_VB_Posterior_Height_CM : ℚ
  Initial_volume : ℚ
  Months_of_Review : ℤ
deriving DecidableEq

/-- The declared widget domains (app.py lines 49-67 and 79-108): each
categorical field ranges over its `CATS` list and each numeric field over
its `NUMS` min-max interval. -/
def validInputs (i : Inputs) : Prop :=
  i.Gender ∈ CATS_Gender ∧
  i.Herniated_Level ∈ CATS_Herniated_Level ∧
  i.Priffmann ∈ CATS_Priffmann ∧
  i.Iwabuchi ∈ CATS_Iwabuchi ∧
  i.Modic ∈ CATS_Modic ∧
  i.Komori ∈ CATS_Komori ∧
  i.MSU ∈ CATS_MSU ∧
  i.Spinal_canal_stenosis ∈ CATS_Spinal_canal_stenosis ∧
  i.Bull_eye ∈ CATS_Bull_eye ∧
  NUMS_Age.1 ≤ i.Age ∧ i.Age ≤ NUMS_Age.2.1 ∧
  NUMS_SS.1 ≤ i.SS ∧ i.SS ≤ NUMS_SS.2.1 ∧
  NUMS_Months_of_Review.1 ≤ i.Months_of_Review ∧
  i.Months_of_Review ≤ NUMS_Months_of_Review.2.1 ∧
  NUMS_Initial_volume.1 ≤ i.Initial_volume ∧
  i.Initial_volume ≤ NUMS_Initial_volume.2.1 ∧
  NUMS_Upper_VB_Posterior_Height_CM.1 ≤ i.Upper_VB_Posterior_Height_CM ∧
  i.Upper_VB_Posterior_Height_CM ≤ NUMS_Upper_VB_Posterior_Height_CM.2.1 ∧
  NUMS_Lower_VB_Posterior_Height_CM.1 ≤ i.Lower_VB_Posterior_Height_CM ∧
  i.Lower_VB_Posterior_Height_CM ≤ NUMS_Lower_VB_Posterior_Height_CM.2.1

instance (i : Inputs) : Decidable (validInputs i) := by
  unfold validInputs
  infer_instance

/-! ### Record assembly (app.py lines 110-130) -/

/-- `gender_label = "Male" if int(Gender) == 1 else "Female"`
(app.py line 111). -/
def gender_label (g : ℤ) : String :=
  if g = 1 then "Male" else "Female"

/-- The `row` dict literal (app.py lines 113-129), keys in source order. -/
def row (i : Inputs) : List (String × FieldVal) :=
  [("Age", .iv i.Age),
   ("Gender", .sv (gender_label i.Gender)),
   ("Herniated_Level", .sv i.Herniated_Level),
   ("Priffmann", .iv i.Priffmann),
   ("Iwabuchi", .iv i.Iwabuchi),
   ("Modic", .iv i.Modic),
   ("Komori", .iv i.Komori),
   ("MSU", .iv i.MSU),
   ("Spinal_canal_stenosis", .iv i.Spinal_canal_stenosis),
   ("Bull_eye", .iv i.Bull_eye),
   ("SS", .qv i.SS),
   ("Upper_VB_Posterior_Height_CM", .qv i.Upper_VB_Posterior_Height_CM),
   ("Lower_VB_Posterior_Height_CM", .qv i.Lower_VB_Posterior_Height_CM),
   ("Initial_volume", .qv i.Initial_volume),
   ("Months_of_Review", .iv i.Months_of_Review)]

/-- `X_input = pd.DataFrame([row], columns=FEATURES)` (app.py line 130):
a one-row frame whose columns are exactly `FEATURES` in that order; each
column holds the value stored in `row` under that name (`none` standing
for the NaN pandas would insert were a name missing from the dict). -/
def X_input (i : Inputs) : List (String × Option FieldVal) :=
  FEATURES.map (fun c => (c, List.lookup c (row i)))

/-! ### Model loader (app.py lines 31-42)

```python
@st.cache_resource
def load_model(pkl_path: Path):
    if not pkl_path.exists():
        st.error(f"Model file not found: {pkl_path}")
        st.stop()
    try:
        return joblib.load(str(pkl_path))
    except Exception as e:
        st.error(f"Model loading failed: {e}")
        st.stop()

model = load_model(MODEL_PATH)
```
-/

/-- The file name of `MODEL_PATH` (app.py line 13); `BASE_DIR` is a
runtime path and is left out of the embedded message. -/
def MODEL_FILE : String := "best_model_random_forest.pkl"

/-- The loaded pipeline, abstracted to the one operation the app calls:
`predictProba xs` stands for `model.predict_proba(X_input)[:, 1][0]` on
the frame `xs` - `ok p` when it returns the positive-class probability
`p`, `error e` when anything in that expression raises with message `e`. -/
structure Model where
  predictProba : List (String × Option FieldVal) → Except String ℚ

/-- What the loader can observe of the model artifact: whether
`MODEL_PATH.exists()`, and what `joblib.load` would yield if attempted
(`ok` a model, `error` the exception message). -/
structure ModelFS where
  modelExists : Bool
  loadResult : Except String Model

/-- Outcome of startup: `halted msg` models `st.error(msg)` followed by
`st.stop()`, which aborts the script run so no form below line 42 is ever
rendered; `ready m` models a successful `load_model` returning `m`. -/
inductive SessionStart where
  | halted (errMsg : String)
  | ready (m : Model)

/-- `load_model(MODEL_PATH)` (app.py lines 31-42): missing file or a
raising `joblib.load` both surface an error and stop the script. -/
def load_model (fs : ModelFS) : SessionStart :=
  if fs.modelExists then
    match fs.loadResult with
    | .ok m => .ready m
    | .error e => .halted ("Model loading failed: " ++ e)
  else
    .halted ("Model file not found: " ++ MODEL_FILE)

/-- After `st.stop()` no further widget is executed: the form (and with it
the predict button) exists only when startup reached `ready`. -/
def formUsable : SessionStart → Bool
  | .halted _ => false
  | .ready _ => true

/-! ### Predict button handler (app.py lines 137-145)

```python
if st.button("Predict Resorption Probability"):
    try:
        proba = model.predict_proba(X_input)[:, 1][0]
        pred_cls = int(proba >= THRESHOLD)
        label = "Resorption (1)" if pred_cls == 1 else "Non-resorption (0)"
        st.success(...)
    except Exception as e:
        st.error(f"Prediction failed: {e}")
        st.info("Please check that ...")
```
-/

/-- The session state a predict click runs against: the resolved threshold
and its label, the current widget values, and the cached model. The Python
handler reads these globals and assigns only locals. -/
structure AppState where
  threshold : ℚ
  thrSource : String
  inputs : Inputs
  model : Model

/-- What the handler renders: `success` carries the probability, the
computed class and its label (the `st.success` line); `failure` carries
the `st.error` and `st.info` messages of the except branch. -/
inductive PredictOutcome where
  | success (proba : ℚ) (predCls : ℤ) (label : String)
  | failure (errMsg : String) (hintMsg : String)

/-- The `st.info` text of app.py line 145. -/
def hintMsg : String :=
  "Please check that the feature names and values match the training set. The pipeline already includes OHE and scaling."

/-- The body of the predict click (app.py lines 138-145), returning the
state it leaves behind together with what it rendered. -/
def predictHandler (s : AppState) : AppState × PredictOutcome :=
  match s.model.predictProba (X_input s.inputs) with
  | .ok proba =>
    (s, .success proba (pred_cls proba s.threshold) (predLabel (pred_cls proba s.threshold)))
  | .error e =>
    (s, .failure ("Prediction failed: " ++ e) hintMsg)

/-! ### Claims -/

/-- C1: for every probability `p` returned by the model and every resolved
threshold `t`, the binary label computed on a predict trigger is positive
(`pred_cls = 1`) if and only if `p ≥ t`, and negative (`pred_cls = 0`) if
and only if `p < t`; in particular at `p = t` the label is positive, never
negative. -/
theorem C1_classification_boundary_inclusive :
    (∀ p t : ℚ, (pred_cls p t = 1 ↔ t ≤ p) ∧ (pred_cls p t = 0 ↔ p < t)) ∧
    (∀ t : ℚ, pred_cls t t = 1) := by
  refine ⟨fun p t => ⟨?_, ?_⟩, fun t => ?_⟩
  · unfold pred_cls
    rcases le_or_lt t p with h | h
    · simp [h]
    · simp [not_le.mpr h, h.not_le]
  · unfold pred_cls
    rcases le_or_lt t p with h | h
    · simp [h, h.not_lt]
    · simp [not_le.mpr h, h]
  · simp [pred_cls]

/-- C2: threshold resolution priority Youden > chosen > default: a config
object holding only `threshold_Youden` resolves to its value; one holding
only `threshold_Chosen` resolves to its value; an absent file or invalid
JSON resolves to exactly `0.5`. -/
theorem C2_threshold_priority :
    (∀ y : ℚ,
      (resolveThreshold (.obj [("threshold_Youden", .jnum y)])).1 = y) ∧
    (∀ c : ℚ,
      (resolveThreshold (.obj [("threshold_Chosen", .jnum c)])).1 = c) ∧
    (resolveThreshold .absent).1 = 1/2 ∧
    (resolveThreshold .badJson).1 = 1/2 := by
  refine ⟨fun y => rfl, fun c => rfl, rfl, rfl⟩

/-- C4: the Gender relabeling maps code 0 to "Female" and code 1 to
"Male"; every possible code yields one of these two labels only; and every
code different from 1, out-of-domain codes included, yields "Female". -/
theorem C4_gender_relabel :
    gender_label 0 = "Female" ∧
    gender_label 1 = "Male" ∧
    (∀ g : ℤ, gender_label g = "Female" ∨ gender_label g = "Male") ∧
    (∀ g : ℤ, g ≠ 1 → gender_label g = "Female") := by
  refine ⟨rfl, rfl, fun g => ?_, fun g hg => ?_⟩
  · unfold gender_label
    by_cases h : g = 1 <;> simp [h]
  · unfold gender_label
    simp [hg]

/-- Witness for C4 at the out-of-domain code 7. -/
theorem C4_gender_relabel_witness : gender_label 7 = "Female" :=
  C4_gender_relabel.2.2.2 7 (by decide)

/-- C9: in the example scenario (Age 50, Gender code 1, level L4/5,
Priffmann 2, Iwabuchi 2, Modic 0, Komori 2, MSU 2, stenosis 0, Bull_eye 1,
SS 30, heights 2.5 and 2.4, volume 4, months 6) the assembled record has
Gender "Male"; and with probability 0.62 against threshold 0.47 the
computed class is positive. -/
theorem C9_example_scenario :
    List.lookup "Gender"
      (row ⟨50, 1, "L4/5", 2, 2, 0, 2, 2, 0, 1, 30, 5/2, 12/5, 4, 6⟩) =
      some (.sv "Male") ∧
    pred_cls (62/100) (47/100) = 1 ∧
    predLabel (pred_cls (62/100) (47/100)) = "Resorption (1)" := by
  refine ⟨rfl, ?_, ?_⟩
  · unfold pred_cls
    norm_num
  · unfold predLabel pred_cls
    norm_num

/-- C3: for every combination of field values within the declared domains,
the assembled record holds exactly the 15 schema fields and the frame
column order equals the declared schema order `FEATURES`. -/
theorem C3_record_schema (i : Inputs) (_h : validInputs i) :
    (row i).map Prod.fst = FEATURES ∧
    (row i).length = 15 ∧
    (X_input i).map Prod.fst = FEATURES ∧
    (X_input i).length = 15 :=
  ⟨rfl, rfl, rfl, rfl⟩

/-- Witness for C3 at the default form values. -/
theorem C3_record_schema_witness :
    validInputs ⟨50, 1, "L4/5", 2, 2, 0, 2, 2, 0, 1, 30, 5/2, 12/5, 4, 6⟩ ∧
    (row ⟨50, 1, "L4/5", 2, 2, 0, 2, 2, 0, 1, 30, 5/2, 12/5, 4, 6⟩).map
      Prod.fst = FEATURES := by
  have hv : validInputs ⟨50, 1, "L4/5", 2, 2, 0, 2, 2, 0, 1, 30, 5/2, 12/5, 4, 6⟩ := by
    unfold validInputs
    norm_num [CATS_Gender, CATS_Herniated_Level, CATS_Priffmann,
      CATS_Iwabuchi, CATS_Modic, CATS_Komori, CATS_MSU,
      CATS_Spinal_canal_stenosis, CATS_Bull_eye, NUMS_Age, NUMS_SS,
      NUMS_Months_of_Review, NUMS_Initial_volume,
      NUMS_Upper_VB_Posterior_Height_CM, NUMS_Lower_VB_Posterior_Height_CM]
  exact ⟨hv, (C3_record_schema _ hv).1⟩

/-- C5: when the model file is missing or deserialization raises, startup
surfaces an error message and halts via `st.stop`, so no form is rendered
and no prediction is possible for the session. -/
theorem C5_fatal_model_load (fs : ModelFS)
    (h : fs.modelExists = false ∨ ∃ e, fs.loadResult = .error e) :
    ∃ msg, load_model fs = .halted msg ∧ formUsable (load_model fs) = false := by
  rcases h with h | ⟨e, he⟩
  · exact ⟨"Model file not found: " ++ MODEL_FILE, by simp [load_model, h], by simp [load_model, h, formUsable]⟩
  · rcases hex : fs.modelExists with _ | _
    · exact ⟨"Model file not found: " ++ MODEL_FILE, by simp [load_model, hex], by simp [load_model, hex, formUsable]⟩
    · exact ⟨"Model loading failed: " ++ e, by simp [load_model, hex, he], by simp [load_model, hex, he, formUsable]⟩

/-- Witness for C5 with an absent model file. -/
theorem C5_fatal_model_load_witness :
    ∃ msg, load_model ⟨false, Except.error "x"⟩ = .halted msg ∧
      formUsable (load_model ⟨false, Except.error "x"⟩) = false :=
  C5_fatal_model_load ⟨false, Except.error "x"⟩ (Or.inl rfl)

/-- C6: when the probability call raises during a predict trigger, the
handler catches the exception, renders it as an error message with a hint,
and returns with the session state (threshold, provenance, inputs, model)
unchanged; the handler never propagates the exception. -/
theorem C6_inference_error_caught (s : AppState) (e : String)
    (h : s.model.predictProba (X_input s.inputs) = .error e) :
    predictHandler s = (s, .failure ("Prediction failed: " ++ e) hintMsg) := by
  unfold predictHandler
  rw [h]

/-- Witness for C6 with a model whose probability call always raises. -/
theorem C6_inference_error_caught_witness :
    predictHandler
      ⟨1/2, "Default 0.5 (threshold file missing)",
        ⟨50, 1, "L4/5", 2, 2, 0, 2, 2, 0, 1, 30, 5/2, 12/5, 4, 6⟩,
        ⟨fun _ => Except.error "boom"⟩⟩ =
      (⟨1/2, "Default 0.5 (threshold file missing)",
        ⟨50, 1, "L4/5", 2, 2, 0, 2, 2, 0, 1, 30, 5/2, 12/5, 4, 6⟩,
        ⟨fun _ => Except.error "boom"⟩⟩,
       .failure ("Prediction failed: " ++ "boom") hintMsg) :=
  C6_inference_error_caught _ "boom" rfl

/-- C7 counterexample: a readable config whose Youden value is 1.5 makes
the resolver return threshold 1.5, which is outside the interval cited by
the claim - the resolver performs no range validation. -/
theorem C7_counterexample :
    (resolveThreshold (.obj [("threshold_Youden", .jnum (3/2))])).1 = 3/2 ∧
    ¬ ((resolveThreshold (.obj [("threshold_Youden", .jnum (3/2))])).1 ≤ 1) := by
  have h : (resolveThreshold (.obj [("threshold_Youden", .jnum (3/2))])).1 = 3/2 := rfl
  refine ⟨h, ?_⟩
  rw [h]
  norm_num

/-- C7 amended: the resolved threshold lies in `[0, 1]` provided the value
the config supplies (after Python float conversion) lies in `[0, 1]`; on
every fallback path the threshold is the in-range default 0.5. The code
never validates the range, so an out-of-range config value passes through
unchanged. -/
theorem C7_amended_threshold_in_unit (cfg : ThrConfig)
    (h : ∀ es, cfg = ThrConfig.obj es →
      ∀ q, pyFloatSel (selected es) = some q → 0 ≤ q ∧ q ≤ 1) :
    0 ≤ (resolveThreshold cfg).1 ∧ (resolveThreshold cfg).1 ≤ 1 := by
  cases cfg with
  | obj es =>
    rcases hq : pyFloatSel (selected es) with _ | q
    · simp only [resolveThreshold, hq, DEFAULT_THR]
      norm_num
    · have hb := h es rfl q hq
      simpa only [resolveThreshold, hq] using hb
  | absent => refine ⟨by norm_num [resolveThreshold, DEFAULT_THR], by norm_num [resolveThreshold, DEFAULT_THR]⟩
  | unreadable => refine ⟨by norm_num [resolveThreshold, DEFAULT_THR], by norm_num [resolveThreshold, DEFAULT_THR]⟩
  | badJson => refine ⟨by norm_num [resolveThreshold, DEFAULT_THR], by norm_num [resolveThreshold, DEFAULT_THR]⟩
  | topNonObj => refine ⟨by norm_num [resolveThreshold, DEFAULT_THR], by norm_num [resolveThreshold, DEFAULT_THR]⟩

/-- Witness for the amended C7 at an absent config file. -/
theorem C7_amended_threshold_in_unit_witness :
    0 ≤ (resolveThreshold .absent).1 ∧ (resolveThreshold .absent).1 ≤ 1 :=
  C7_amended_threshold_in_unit .absent (fun _ heq => nomatch heq)

/-- C8 counterexample: a readable config holding only `threshold_Chosen`
resolves to the chosen value, yet the provenance label still attributes it
to the Youden source instead of disclosing the fallback. -/
theorem C8_counterexample :
    dget [("threshold_Chosen", JVal.jnum (2/5))] "threshold_Youden" = none ∧
    resolveThreshold (.obj [("threshold_Chosen", JVal.jnum (2/5))]) =
      (2/5, srcYouden) ∧
    srcYouden ≠ srcDefault := by
  refine ⟨rfl, rfl, ?_⟩
  decide

/-- C8 amended: when the file is absent, unreadable, invalid JSON, has a
non-object top level, or the selected value fails float conversion, the
label is the default label (disclosing the 0.5 fallback); but on every
successful read the label always attributes the threshold to the Youden
source, even when the value actually came from `threshold_Chosen` or from
the built-in 0.5 default. -/
theorem C8_amended_provenance_label :
    ((resolveThreshold .absent).2 = srcDefault ∧
     (resolveThreshold .unreadable).2 = srcDefault ∧
     (resolveThreshold .badJson).2 = srcDefault ∧
     (resolveThreshold .topNonObj).2 = srcDefault) ∧
    (∀ es, pyFloatSel (selected es) = none →
      (resolveThreshold (.obj es)).2 = srcDefault) ∧
    (∀ es q, pyFloatSel (selected es) = some q →
      (resolveThreshold (.obj es)).2 = srcYouden) := by
  refine ⟨⟨rfl, rfl, rfl, rfl⟩, fun es h => ?_, fun es q h => ?_⟩ <;>
    simp [resolveThreshold, h]

/-- Witness for the amended C8: a chosen-only config is labelled Youden. -/
theorem C8_amended_provenance_label_witness :
    (resolveThreshold (.obj [("threshold_Chosen", JVal.jnum (3/10))])).2 =
      srcYouden :=
  C8_amended_provenance_label.2.2 [("threshold_Chosen", JVal.jnum (3/10))]
    (3/10) rfl

/-- C10: threshold resolution is total - every observable config state
yields a threshold and a label without an uncaught exception; the result
is either the 0.5 default or a value float-converted from the config; and
every failure path (absent, unreadable, invalid JSON, non-object top
level, null or non-numeric selected value) yields exactly 0.5, as does a
readable object with both keys absent. -/
theorem C10_resolver_total :
    (∀ cfg : ThrConfig, (resolveThreshold cfg).1 = 1/2 ∨
      ∃ es q, cfg = .obj es ∧ pyFloatSel (selected es) = some q ∧
        (resolveThreshold cfg).1 = q) ∧
    ((resolveThreshold .absent).1 = 1/2 ∧
     (resolveThreshold .unreadable).1 = 1/2 ∧
     (resolveThreshold .badJson).1 = 1/2 ∧
     (resolveThreshold .topNonObj).1 = 1/2) ∧
    (∀ es, pyFloatSel (selected es) = none →
      resolveThreshold (.obj es) = (1/2, srcDefault)) ∧
    (resolveThreshold (.obj [("threshold_Youden", .jnull)])).1 = 1/2 ∧
    (resolveThreshold (.obj [])).1 = 1/2 := by
  refine ⟨fun cfg => ?_, ⟨rfl, rfl, rfl, rfl⟩, fun es h => ?_, rfl, rfl⟩
  · cases cfg with
    | obj es =>
      rcases hq : pyFloatSel (selected es) with _ | q
      · left
        simp [resolveThreshold, hq, DEFAULT_THR]
      · right
        exact ⟨es, q, rfl, hq, by simp [resolveThreshold, hq]⟩
    | absent => left; rfl
    | unreadable => left; rfl
    | badJson => left; rfl
    | topNonObj => left; rfl
  · simp [resolveThreshold, h, DEFAULT_THR]

/-- Witness for C10 at a config whose selected value is a non-numeric
string, a conversion failure path. -/
theorem C10_resolver_total_witness :
    resolveThreshold (.obj [("threshold_Youden", JVal.jstr none)]) =
      (1/2, srcDefault) :=
  C10_resolver_total.2.2.1 [("threshold_Youden", JVal.jstr none)] rfl

end SpineApp
